import Mathlib

/-!
Verification of the EDMCOverlay improved client
(`src/edmcoverlay_improved.py`) against its specification.

The Python module is shallowly embedded:
  * Python runtime values that can appear as message-field values are the
    inductive type `PyVal`; a Python `dict` used as a message is an
    association list `PyDict` (Python dicts preserve insertion order, and
    iteration over `msg.items()` visits pairs in that order).
  * Pure functions (`Overlay._sanitize_message`, `json.dumps`) become Lean
    functions.
  * Effectful operations (`connect`, `send_raw`, `send_message`,
    `ServiceManager.ensure_service`) become state-passing functions:
    they take the relevant mutable state plus an environment describing
    the outcome of each external effect (socket connect attempts, socket
    writes, process polls, ...), and return the new state, an
    `Except Exc Unit` (normal return vs. raised exception), and the list
    of externally observable actions in order (`Act`).
-/

namespace EDMCOverlay

/-- Python runtime values relevant to the message path.  `boolV` is kept
separate from `intV` because Python's `bool` is a distinct type, but it is
a subclass of `int`, so `isinstance(True, int)` is `True`; the embedding
of `isinstance` below reflects that. -/
inductive PyVal
  | strV (s : String)
  | intV (n : Int)
  | boolV (b : Bool)
  | floatV (q : ℚ)
  | noneV
deriving DecidableEq, Repr

/-- A Python dict used as a message: insertion-ordered key/value pairs. -/
abbrev PyDict := List (String × PyVal)

/-- The Python type objects the sanitizer's whitelist refers to. -/
inductive PyType
  | strT
  | intT
  | floatT
deriving DecidableEq, Repr

/-- `isinstance(v, t)` for the types in the whitelist.  A Python `bool`
is an instance of `int`. -/
def isinstanceOf : PyVal → PyType → Bool
  | PyVal.strV _, PyType.strT => true
  | PyVal.intV _, PyType.intT => true
  | PyVal.boolV _, PyType.intT => true
  | PyVal.floatV _, PyType.floatT => true
  | _, _ => false

/-- `isinstance(v, (t1, ..., tn))`: the tuple case of `isinstance`. -/
def isinstanceAny (v : PyVal) (ts : List PyType) : Bool :=
  ts.any (isinstanceOf v)

/-- The `allowed_fields` whitelist of `Overlay._sanitize_message`:
field name → accepted Python types (a lone type in the source is the
one-element tuple here, mirroring the `expected_types` normalization). -/
def allowed_fields : List (String × List PyType) :=
  [("id", [PyType.strT, PyType.intT]),
   ("text", [PyType.strT]),
   ("color", [PyType.strT]),
   ("size", [PyType.strT]),
   ("x", [PyType.intT, PyType.floatT]),
   ("y", [PyType.intT, PyType.floatT]),
   ("ttl", [PyType.intT, PyType.floatT]),
   ("shape", [PyType.strT]),
   ("fill", [PyType.strT]),
   ("w", [PyType.intT, PyType.floatT]),
   ("h", [PyType.intT, PyType.floatT]),
   ("command", [PyType.strT])]

/-- The fields given the extra string-truncation treatment in
`_sanitize_message`: `["text", "color", "size", "shape", "fill", "command"]`.
Note that `"id"` is NOT in this list. -/
def text_fields : List String :=
  ["text", "color", "size", "shape", "fill", "command"]

/-- Python's `str(value)[:1000]` for a `str` value: slicing by code points. -/
def truncate1000 (s : String) : String := String.mk (s.data.take 1000)

/-- The per-field body of the `for key, value in msg.items()` loop of
`Overlay._sanitize_message`: `some (key, cleanedValue)` when the loop
stores `sanitized[key]`, `none` when the field is dropped. -/
def sanitizeField (kv : String × PyVal) : Option (String × PyVal) :=
  match allowed_fields.lookup kv.1 with
  | Option.none => Option.none
  | Option.some ts =>
    if isinstanceAny kv.2 ts then
      if kv.1 ∈ text_fields then
        -- `if isinstance(value, str): sanitized[key] = str(value)[:1000]`
        match kv.2 with
        | PyVal.strV s => Option.some (kv.1, PyVal.strV (truncate1000 s))
        | _ => Option.none
      else
        -- `sanitized[key] = value`
        Option.some kv
    else Option.none

/-- `Overlay._sanitize_message`: iterate the input dict in order,
keeping/cleaning whitelisted well-typed fields and dropping the rest. -/
def sanitize_message (msg : PyDict) : PyDict :=
  msg.filterMap sanitizeField

example : sanitize_message
    [("id", PyVal.strV "t"), ("text", PyVal.strV "hi"),
     ("malicious", PyVal.strV "rm -rf /"), ("x", PyVal.strV "nan")]
    = [("id", PyVal.strV "t"), ("text", PyVal.strV "hi")] := by decide

example : sanitize_message [("x", PyVal.boolV true)]
    = [("x", PyVal.boolV true)] := by decide

/-! ## `json.dumps(..., ensure_ascii=True)` on sanitized messages -/

/-- One lowercase hexadecimal digit. -/
def hexDigit (n : ℕ) : Char :=
  if n < 10 then Char.ofNat (48 + n) else Char.ofNat (87 + n)

/-- Four-digit lowercase hex, as in a JSON `\uXXXX` escape. -/
def hex4 (n : ℕ) : String :=
  String.mk [hexDigit (n / 4096 % 16), hexDigit (n / 256 % 16),
             hexDigit (n / 16 % 16), hexDigit (n % 16)]

/-- How `json.dumps` with `ensure_ascii=True` renders one character of a
string: the two-character escapes for the JSON specials, `\uXXXX` for
other control characters and for all non-ASCII characters (a surrogate
pair for characters beyond the BMP). -/
def jsonEscapeChar (c : Char) : String :=
  if c = '"' then "\\\""
  else if c = '\\' then "\\\\"
  else if c = '\n' then "\\n"
  else if c = '\t' then "\\t"
  else if c = '\r' then "\\r"
  else if c = '\x08' then "\\b"
  else if c = '\x0c' then "\\f"
  else if c.toNat < 32 ∨ 126 < c.toNat then
    if c.toNat < 65536 then "\\u" ++ hex4 c.toNat
    else
      "\\u" ++ hex4 (55296 + (c.toNat - 65536) / 1024)
        ++ "\\u" ++ hex4 (56320 + (c.toNat - 65536) % 1024)
  else String.mk [c]

/-- A JSON string literal for `s`. -/
def jsonStr (s : String) : String :=
  "\"" ++ String.join (s.data.map jsonEscapeChar) ++ "\""

/-- Rendering of a Python float by `json.dumps`, modelled on the embedded
rational: an integral float prints with a trailing `.0`, otherwise the
fraction is printed literally (no claim exercises non-integral floats). -/
def jsonFloat (q : ℚ) : String :=
  if q.den = 1 then toString q.num ++ ".0"
  else toString q.num ++ "/" ++ toString q.den

/-- `json.dumps` for one message-field value. -/
def jsonVal : PyVal → String
  | PyVal.strV s => jsonStr s
  | PyVal.intV n => toString n
  | PyVal.boolV b => if b then "true" else "false"
  | PyVal.floatV q => jsonFloat q
  | PyVal.noneV => "null"

/-- `json.dumps(msg, ensure_ascii=True)` for a dict, with the default
separators `", "` and `": "`, keys in insertion order. -/
def jsonDumps (msg : PyDict) : String :=
  "\x7b" ++ String.intercalate ", "
          (msg.map (fun kv => jsonStr kv.1 ++ ": " ++ jsonVal kv.2)) ++ "\x7d"

example : jsonDumps [("id", PyVal.strV "m1"), ("x", PyVal.intV 10)]
    = "\x7b\"id\": \"m1\", \"x\": 10\x7d" := by decide

/-! ## The protocol client: `Overlay.connect` / `send_raw` / `send_message`

State: `Overlay.connection` is `Option Conn` (`none` = Disconnected).
Environment: the result of the i-th socket connect attempt and of the
k-th `conn.send` call within one `send_raw`.  Observable actions are
recorded in order. -/

/-- An established socket connection (the embedding needs only its
presence). -/
abbrev Conn := Unit

/-- The exception classes the embedded code paths can raise. -/
inductive Exc
  | overlayConnectionError (msg : String)
  | overlayServiceError (msg : String)
deriving DecidableEq, Repr

/-- Python `str(e)` of an exception: its message. -/
def excStr : Exc → String
  | Exc.overlayConnectionError m => m
  | Exc.overlayServiceError m => m

/-- Externally observable actions, in program order. -/
inductive Act
  | connAttempt (i : ℕ)
  | sleepFor (d : ℚ)
  | write (data : String)
  | closeConn
  | aliveProbe
  | findExe
  | spawn (prog : String) (args : List String)
  | pollProc
  | communicate
deriving DecidableEq, Repr

/-- Module constants of `edmcoverlay_improved.py`. -/
def RECONNECT_ATTEMPTS : ℕ := 3

/-- `RECONNECT_DELAY = 1.0` (seconds). -/
def RECONNECT_DELAY : ℚ := 1

/-- `CONNECT_TIMEOUT = 5.0` (seconds), set on each fresh socket. -/
def CONNECT_TIMEOUT : ℚ := 5

/-- The `for attempt in range(RECONNECT_ATTEMPTS)` loop of
`Overlay.connect`, iterating over the remaining attempt indices.
`env i` is the outcome of attempt `i`: `Except.ok ()` means
`connection.connect(...)` succeeded, `Except.error e` means it raised one
of the caught classes (`socket.timeout`, `ConnectionRefusedError`,
`OSError`) with `str` rendering `e`.  Returns the final
`self.connection`, normal return vs. raised exception, and the action
trace. -/
def connectGo (env : ℕ → Except String Unit) (n : ℕ) :
    List ℕ → Option Conn × Except Exc Unit × List Act
  | [] => (Option.none, Except.ok (), [])
  | i :: rest =>
    match env i with
    | Except.ok _ => (Option.some (), Except.ok (), [Act.connAttempt i])
    | Except.error e =>
      if i < n - 1 then
        let r := connectGo env n rest
        (r.1, r.2.1, Act.connAttempt i :: Act.sleepFor RECONNECT_DELAY :: r.2.2)
      else
        (Option.none,
         Except.error (Exc.overlayConnectionError
           ("Failed to connect after " ++ toString n ++ " attempts: " ++ e)),
         [Act.connAttempt i])

/-- `Overlay.connect`: under the client mutex, return immediately if a
connection is already present, otherwise run the retry loop. -/
def connect (st : Option Conn) (env : ℕ → Except String Unit) :
    Option Conn × Except Exc Unit × List Act :=
  match st with
  | Option.some c => (Option.some c, Except.ok (), [])
  | Option.none => connectGo env RECONNECT_ATTEMPTS (List.range RECONNECT_ATTEMPTS)

example :
    connect Option.none (fun _ => Except.error "refused")
      = (Option.none,
         Except.error (Exc.overlayConnectionError
           "Failed to connect after 3 attempts: refused"),
         [Act.connAttempt 0, Act.sleepFor 1, Act.connAttempt 1,
          Act.sleepFor 1, Act.connAttempt 2]) := rfl

/-- Environment for one `send_raw` call: `connectRes i` is the outcome of
the i-th socket connect attempt (used when the context manager has to
connect first), `writeRes k` is the exception (if any) raised by the k-th
`conn.send` call of this `send_raw` (`Option.none` = the write
succeeded), rendered by `str`. -/
structure SendEnv where
  connectRes : ℕ → Except String Unit
  writeRes : ℕ → Option String

/-- The body of the `with self._connection_context() as conn:` block of
`Overlay.send_raw`, entered with connection `st` and the actions `tr`
performed so far: sanitize, `json.dumps`, `conn.send(data)`,
`conn.send(b"\n")`.  An exception raised by either send is thrown into
the `_connection_context` generator at its `yield`, whose
`except Exception` handler calls `self.disconnect()` and raises
`OverlayConnectionError(f"Connection error: {e}")`; back in `send_raw`
that wrapped exception matches only the final `except Exception` clause,
which re-raises it unchanged (the
`except (BrokenPipeError, ConnectionResetError)` clause never sees the
original exception, so its `"Connection lost"` message is unreachable
from the body). -/
def sendBody (st : Option Conn) (env : SendEnv) (msg : PyDict) (tr : List Act) :
    Option Conn × Except Exc Unit × List Act :=
  let data := jsonDumps (sanitize_message msg)
  match env.writeRes 0 with
  | Option.some e =>
    (Option.none,
     Except.error (Exc.overlayConnectionError ("Connection error: " ++ e)),
     tr ++ [Act.write data, Act.closeConn])
  | Option.none =>
    match env.writeRes 1 with
    | Option.some e =>
      (Option.none,
       Except.error (Exc.overlayConnectionError ("Connection error: " ++ e)),
       tr ++ [Act.write data, Act.write "\n", Act.closeConn])
    | Option.none => (st, Except.ok (), tr ++ [Act.write data, Act.write "\n"])

/-- `Overlay.send_raw`.  The argument is typed as a dict, so the opening
`isinstance(msg, dict)` guard (raising `ValueError` otherwise) is
discharged by typing.  Entering `_connection_context` runs the generator
up to its `yield`: if no connection is present it calls `self.connect()`
inside the generator's `try`, so a connect failure is also caught there,
followed by `self.disconnect()` and the `OverlayConnectionError`
wrapping. -/
def send_raw (st : Option Conn) (env : SendEnv) (msg : PyDict) :
    Option Conn × Except Exc Unit × List Act :=
  match st with
  | Option.some c => sendBody (Option.some c) env msg []
  | Option.none =>
    let r := connect Option.none env.connectRes
    match r.2.1 with
    | Except.error e =>
      (Option.none,
       Except.error (Exc.overlayConnectionError
         ("Connection error: " ++ excStr e)),
       r.2.2 ++ [Act.closeConn])
    | Except.ok _ => sendBody r.1 env msg r.2.2

/-! ## The service supervisor: `ServiceManager` -/

/-- `ServiceManager` mutable state: `service` is the stored
`subprocess.Popen` handle (presence only), `program_path` the cached
executable discovery result. -/
structure SMState where
  service : Option Unit
  program_path : Option String
deriving DecidableEq, Repr

/-- Environment for one `ensure_service` call: `gameRunning k` is the
result of the k-th `check_game_running()` call (`monitor` absent makes
every call `true`); `alive` the `is_service_alive()` probe result (that
method swallows all its errors internally); `findResult` the first
existing candidate location when no path is cached; `existingPoll` the
`poll()` result of a pre-existing handle (`Option.none` = still
running); `spawnExc` an exception raised by `subprocess.Popen` itself;
`launchPoll` the `poll()` result after the 2-second grace sleep
(`Option.some code` = the child already exited with `code`);
`stderrData` the decoded stderr drained by `communicate()`. -/
structure SvcEnv where
  gameRunning : ℕ → Bool
  alive : Bool
  findResult : Option String
  existingPoll : Option Int
  spawnExc : Option String
  launchPoll : Option Int
  stderrData : String

/-- `ServiceManager.find_server_program`: return the cached path if one
is set, otherwise scan the candidate locations (the scan outcome is
`env.findResult`) and cache a hit. -/
def find_server_program (st : SMState) (env : SvcEnv) :
    SMState × Option String × List Act :=
  match st.program_path with
  | Option.some p => (st, Option.some p, [])
  | Option.none =>
    match env.findResult with
    | Option.some p => ({ st with program_path := Option.some p }, Option.some p, [Act.findExe])
    | Option.none => (st, Option.none, [Act.findExe])

/-- The `try:` block of `ensure_service` together with its
`except Exception` handler, entered after executable discovery succeeded
with `program`; `st` already holds any update from discovery and `tr`
the actions so far.  The handler re-raises as
`OverlayServiceError(f"Failed to start overlay service: {err}")` only
when `check_game_running()` (call index 2) is still true; otherwise the
launch failure is swallowed and the call returns normally. -/
def ensureLaunch (st : SMState) (env : SvcEnv) (args : List String)
    (program : String) (tr : List Act) :
    SMState × Except Exc Unit × List Act :=
  -- `if self._service and self._service.poll() is None: return`
  if st.service.isSome ∧ env.existingPoll = Option.none then
    (st, Except.ok (), tr ++ [Act.pollProc])
  else
    let tr1 := tr ++ (if st.service.isSome then [Act.pollProc] else [])
    if env.gameRunning 1 then
      match env.spawnExc with
      | Option.some e =>
        -- `subprocess.Popen` raised; `self._service` was not assigned
        if env.gameRunning 2 then
          (st, Except.error (Exc.overlayServiceError
            ("Failed to start overlay service: " ++ e)),
           tr1 ++ [Act.spawn program args])
        else (st, Except.ok (), tr1 ++ [Act.spawn program args])
      | Option.none =>
        let st2 := { st with service := Option.some () }
        let tr2 := tr1 ++ [Act.spawn program args, Act.sleepFor 2, Act.pollProc]
        match env.launchPoll with
        | Option.none => (st2, Except.ok (), tr2)
        | Option.some code =>
          -- child exited within the grace period: drain output, build the
          -- message, raise `OverlayServiceError(error_msg)`
          let errMsg := program ++ " exited with code " ++ toString code ++
            (if env.stderrData ≠ "" then ", stderr: " ++ env.stderrData else "")
          if env.gameRunning 2 then
            (st2, Except.error (Exc.overlayServiceError
              ("Failed to start overlay service: " ++ errMsg)),
             tr2 ++ [Act.communicate])
          else (st2, Except.ok (), tr2 ++ [Act.communicate])
    else (st, Except.ok (), tr1)

/-- `ServiceManager.ensure_service`: return immediately when
`check_game_running()` (call index 0) is false; then, under the
supervisor lock, return if the liveness probe succeeds; locate the
executable, raising `OverlayServiceError("EDMCOverlay.exe not found")`
outside the `try:` block when discovery fails; then run the launch
sequence. -/
def ensure_service (st : SMState) (env : SvcEnv) (args : List String) :
    SMState × Except Exc Unit × List Act :=
  if env.gameRunning 0 then
    if env.alive then (st, Except.ok (), [Act.aliveProbe])
    else
      let f := find_server_program st env
      match f.2.1 with
      | Option.none =>
        (f.1, Except.error (Exc.overlayServiceError "EDMCOverlay.exe not found"),
         Act.aliveProbe :: f.2.2)
      | Option.some program =>
        ensureLaunch f.1 env args program (Act.aliveProbe :: f.2.2)
  else (st, Except.ok (), [])

/-! ## The facade: `Overlay.send_message` -/

/-- The message dict built by `Overlay.send_message`, in insertion
order. -/
def messageDict (msgid text color : String) (x y ttl : Int) (size : String) :
    PyDict :=
  [("id", PyVal.strV msgid), ("color", PyVal.strV color),
   ("text", PyVal.strV text), ("size", PyVal.strV size),
   ("x", PyVal.intV x), ("y", PyVal.intV y), ("ttl", PyVal.intV ttl)]

/-- `Overlay.send_message(msgid, text, color, x, y, ttl=4, size="normal")`:
if no connection is present, first `_service_manager.ensure_service(self.args)`
then `self.connect()` (each raised exception propagating unwrapped), then
build the message dict and `self.send_raw(msg)`.  Returns the client
connection state, the supervisor state, the outcome, and the action
trace. -/
def send_message (st : Option Conn) (env : SendEnv)
    (svst : SMState) (svenv : SvcEnv) (args : List String)
    (msgid text color : String) (x y : Int) (ttl : Int) (size : String) :
    (Option Conn × SMState) × Except Exc Unit × List Act :=
  let msg := messageDict msgid text color x y ttl size
  match st with
  | Option.some c =>
    let r := send_raw (Option.some c) env msg
    ((r.1, svst), r.2.1, r.2.2)
  | Option.none =>
    let s := ensure_service svst svenv args
    match s.2.1 with
    | Except.error e => ((Option.none, s.1), Except.error e, s.2.2)
    | Except.ok _ =>
      let c := connect Option.none env.connectRes
      match c.2.1 with
      | Except.error e => ((c.1, s.1), Except.error e, s.2.2 ++ c.2.2)
      | Except.ok _ =>
        let r := send_raw c.1 env msg
        ((r.1, s.1), r.2.1, s.2.2 ++ c.2.2 ++ r.2.2)

/-! ## Sanitizer lemmas -/

/-- A successful `List.lookup` key is among the mapped-out keys. -/
theorem lookup_mem_mapfst {β : Type} (k : String) (ts : β) :
    ∀ (l : List (String × β)), l.lookup k = Option.some ts →
      k ∈ l.map Prod.fst := by
  intro l
  induction l with
  | nil => intro h; simp [List.lookup] at h
  | cons a t ih =>
    intro h
    by_cases hk : k = a.1
    · simp [hk]
    · cases a with
      | mk k1 v1 =>
        have hne : (k == k1) = false := beq_eq_false_iff_ne.mpr hk
        rw [List.lookup, hne] at h
        simp [ih h]

/-- `isinstance` on a string value depends only on its being a string. -/
theorem isinstanceAny_strV (a b : String) (ts : List PyType) :
    isinstanceAny (PyVal.strV a) ts = isinstanceAny (PyVal.strV b) ts := by
  induction ts with
  | nil => rfl
  | cons t rest ih =>
    cases t <;> simp [isinstanceAny, isinstanceOf, List.any_cons] at ih ⊢ <;>
      exact ih

/-- What a kept field looks like: the key is unchanged, it passed the
whitelist lookup, and the stored value still satisfies the looked-up
types. -/
theorem sanitizeField_some (k0 k : String) (v0 v : PyVal)
    (h : sanitizeField (k0, v0) = Option.some (k, v)) :
    k = k0 ∧ ∃ ts, allowed_fields.lookup k = Option.some ts ∧
      isinstanceAny v ts = true := by
  unfold sanitizeField at h
  simp only at h
  cases hl : allowed_fields.lookup k0 with
  | none => rw [hl] at h; exact absurd h (by simp)
  | some ts =>
    rw [hl] at h
    dsimp only at h
    by_cases hi : isinstanceAny v0 ts = true
    · rw [if_pos hi] at h
      by_cases htf : k0 ∈ text_fields
      · rw [if_pos htf] at h
        cases v0 with
        | strV s =>
          simp only [Option.some.injEq, Prod.mk.injEq] at h
          obtain ⟨hk, hv⟩ := h
          subst hk
          refine ⟨rfl, ts, hl, ?_⟩
          rw [← hv, isinstanceAny_strV (truncate1000 s) s ts]
          exact hi
        | intV n => exact absurd h (by simp)
        | boolV b => exact absurd h (by simp)
        | floatV q => exact absurd h (by simp)
        | noneV => exact absurd h (by simp)
      · rw [if_neg htf] at h
        simp only [Option.some.injEq, Prod.mk.injEq] at h
        obtain ⟨hk, hv⟩ := h
        subst hk; subst hv
        exact ⟨rfl, ts, hl, hi⟩
    · rw [if_neg hi] at h
      exact absurd h (by simp)

/-- C1: every field kept by `_sanitize_message` has a whitelisted key and
a value that is an `isinstance` of that key's declared types.  (Totality
is by construction: `sanitize_message` is a total function into dicts,
returning `[]` when every field is dropped.) -/
theorem sanitize_message_whitelist (m : PyDict) (k : String) (v : PyVal)
    (h : (k, v) ∈ sanitize_message m) :
    k ∈ allowed_fields.map Prod.fst ∧
    ∃ ts, allowed_fields.lookup k = Option.some ts ∧
      isinstanceAny v ts = true := by
  obtain ⟨⟨k0, v0⟩, _, hf⟩ := List.mem_filterMap.mp h
  obtain ⟨hk, ts, hl, hi⟩ := sanitizeField_some k0 k v0 v hf
  exact ⟨lookup_mem_mapfst k ts allowed_fields hl, ts, hl, hi⟩

/-- Truncating to 1000 code points is idempotent. -/
theorem truncate1000_idem (s : String) :
    truncate1000 (truncate1000 s) = truncate1000 s := by
  simp [truncate1000, List.take_take]

/-- A field kept by one sanitization pass is kept unchanged by a second
pass. -/
theorem sanitizeField_idem (kv kv' : String × PyVal)
    (h : sanitizeField kv = Option.some kv') :
    sanitizeField kv' = Option.some kv' := by
  obtain ⟨k0, v0⟩ := kv
  unfold sanitizeField at h ⊢
  cases hl : allowed_fields.lookup k0 with
  | none => rw [hl] at h; exact absurd h (by simp)
  | some ts =>
    rw [hl] at h
    dsimp only at h
    by_cases hi : isinstanceAny v0 ts = true
    · rw [if_pos hi] at h
      by_cases htf : k0 ∈ text_fields
      · rw [if_pos htf] at h
        cases v0 with
        | strV s =>
          simp only [Option.some.injEq] at h
          subst h
          dsimp only
          rw [hl]
          dsimp only
          rw [if_pos (by rw [isinstanceAny_strV (truncate1000 s) s]; exact hi),
              if_pos htf, truncate1000_idem]
        | intV n => exact absurd h (by simp)
        | boolV b => exact absurd h (by simp)
        | floatV q => exact absurd h (by simp)
        | noneV => exact absurd h (by simp)
      · rw [if_neg htf] at h
        simp only [Option.some.injEq] at h
        subst h
        dsimp only
        rw [hl]
        dsimp only
        rw [if_pos hi, if_neg htf]
    · rw [if_neg hi] at h
      exact absurd h (by simp)

/-- C6: the sanitizer is idempotent — sanitizing an already sanitized
message changes nothing. -/
theorem sanitize_message_idem (m : PyDict) :
    sanitize_message (sanitize_message m) = sanitize_message m := by
  unfold sanitize_message
  induction m with
  | nil => rfl
  | cons a t ih =>
    cases hf : sanitizeField a with
    | none => simpa [List.filterMap_cons, hf] using ih
    | some b =>
      simp [List.filterMap_cons, hf, sanitizeField_idem a b hf, ih]

/-- An `id` field holding any string passes the sanitizer unchanged:
`"id"` is whitelisted as `(str, int)` but is not in the truncation
list. -/
theorem sanitizeField_id_str (s : String) :
    sanitizeField ("id", PyVal.strV s) = Option.some ("id", PyVal.strV s) := rfl

/-- Each of the six truncation-listed fields holding a string is kept
with its value truncated to 1000 code points. -/
theorem sanitizeField_text (k s : String) (htf : k ∈ text_fields) :
    sanitizeField (k, PyVal.strV s)
      = Option.some (k, PyVal.strV (truncate1000 s)) := by
  have hk : k = "text" ∨ k = "color" ∨ k = "size" ∨ k = "shape" ∨
      k = "fill" ∨ k = "command" := by simpa [text_fields] using htf
  rcases hk with rfl | rfl | rfl | rfl | rfl | rfl <;> rfl

/-- A 1001-code-point string. -/
def longId : String := String.mk (List.replicate 1001 'a')

/-- C5 counterexample: the claim says that every text-valued whitelisted
field — including `id` — longer than 1000 characters is truncated to its
first 1000 characters; but a 1001-character `id` value is returned
unchanged by `_sanitize_message`, and it differs from its 1000-character
truncation. -/
theorem sanitize_message_id_untruncated :
    sanitize_message [("id", PyVal.strV longId)]
        = [("id", PyVal.strV longId)]
    ∧ 1000 < longId.data.length
    ∧ PyVal.strV longId ≠ PyVal.strV (truncate1000 longId) := by
  have h1 : longId.data.length = 1001 := by
    show (List.replicate 1001 'a').length = 1001
    rw [List.length_replicate]
  refine ⟨?_, ?_, ?_⟩
  · show List.filterMap sanitizeField [("id", PyVal.strV longId)] = _
    rw [List.filterMap_cons, sanitizeField_id_str]
    rfl
  · rw [h1]; norm_num
  · intro h
    have h' : longId = truncate1000 longId := by injection h
    have hlen : longId.data.length = (truncate1000 longId).data.length :=
      congrArg (fun t => t.data.length) h'
    have h2 : (truncate1000 longId).data.length = 1000 := by
      show (longId.data.take 1000).length = 1000
      rw [List.length_take, h1]
      omega
    rw [h1, h2] at hlen
    exact absurd hlen (by norm_num)

/-- C5 amended: truncation to the first 1000 characters applies exactly
to the six truncation-listed string fields (`text`, `color`, `size`,
`shape`, `fill`, `command`), values of 1000 characters or fewer passing
through unchanged; an `id` field holding a string is passed through
unchanged regardless of its length. -/
theorem sanitize_truncation (m : PyDict) (k s : String)
    (h : (k, PyVal.strV s) ∈ m) :
    (k ∈ text_fields →
      (k, PyVal.strV (truncate1000 s)) ∈ sanitize_message m)
    ∧ (k = "id" → (k, PyVal.strV s) ∈ sanitize_message m)
    ∧ (truncate1000 s).data = s.data.take 1000
    ∧ (s.data.length ≤ 1000 → truncate1000 s = s) := by
  refine ⟨?_, ?_, rfl, ?_⟩
  · intro htf
    exact List.mem_filterMap.mpr ⟨(k, PyVal.strV s), h, sanitizeField_text k s htf⟩
  · intro hk
    subst hk
    exact List.mem_filterMap.mpr ⟨("id", PyVal.strV s), h, sanitizeField_id_str s⟩
  · intro hlen
    show String.mk (s.data.take 1000) = s
    rw [List.take_of_length_le hlen]

/-! ## Connection lemmas -/

/-- When all three connect attempts fail, `connect` performs attempt 0,
sleeps, attempt 1, sleeps, attempt 2, then raises
`OverlayConnectionError` carrying the last cause, leaving the connection
unset. -/
theorem connect_all_fail (env : ℕ → Except String Unit) (e0 e1 e2 : String)
    (h0 : env 0 = Except.error e0) (h1 : env 1 = Except.error e1)
    (h2 : env 2 = Except.error e2) :
    connect Option.none env
      = (Option.none,
         Except.error (Exc.overlayConnectionError
           ("Failed to connect after 3 attempts: " ++ e2)),
         [Act.connAttempt 0, Act.sleepFor RECONNECT_DELAY,
          Act.connAttempt 1, Act.sleepFor RECONNECT_DELAY,
          Act.connAttempt 2]) := by
  show connectGo env RECONNECT_ATTEMPTS (List.range RECONNECT_ATTEMPTS) = _
  rw [show List.range RECONNECT_ATTEMPTS = [0, 1, 2] from rfl]
  rw [connectGo, h0]
  dsimp only
  rw [if_pos (by decide : (0 : ℕ) < RECONNECT_ATTEMPTS - 1)]
  rw [connectGo, h1]
  dsimp only
  rw [if_pos (by decide : (1 : ℕ) < RECONNECT_ATTEMPTS - 1)]
  rw [connectGo, h2]
  dsimp only
  rw [if_neg (by decide : ¬ (2 : ℕ) < RECONNECT_ATTEMPTS - 1)]
  rfl

/-- When the first connect attempt succeeds, `connect` stops after that
one attempt with the connection set. -/
theorem connect_first_ok (env : ℕ → Except String Unit)
    (h0 : env 0 = Except.ok ()) :
    connect Option.none env
      = (Option.some (), Except.ok (), [Act.connAttempt 0]) := by
  show connectGo env RECONNECT_ATTEMPTS (List.range RECONNECT_ATTEMPTS) = _
  rw [show List.range RECONNECT_ATTEMPTS = [0, 1, 2] from rfl]
  rw [connectGo, h0]

/-- C3: against an unreachable endpoint, `connect()` from the
Disconnected state makes exactly `RECONNECT_ATTEMPTS = 3` attempts with a
`RECONNECT_DELAY = 1` second sleep between consecutive attempts, raises
`OverlayConnectionError` carrying the last underlying cause, and leaves
the connection unset; from the Connected state it is a no-op performing
no attempt. -/
theorem connect_retry_exhaustion (env : ℕ → Except String Unit)
    (errs : ℕ → String) (h : ∀ i, env i = Except.error (errs i)) :
    connect Option.none env
      = (Option.none,
         Except.error (Exc.overlayConnectionError
           ("Failed to connect after 3 attempts: " ++ errs 2)),
         [Act.connAttempt 0, Act.sleepFor RECONNECT_DELAY,
          Act.connAttempt 1, Act.sleepFor RECONNECT_DELAY,
          Act.connAttempt 2])
    ∧ RECONNECT_ATTEMPTS = 3 ∧ RECONNECT_DELAY = 1
    ∧ ∀ (c : Conn) (env2 : ℕ → Except String Unit),
        connect (Option.some c) env2 = (Option.some c, Except.ok (), []) :=
  ⟨connect_all_fail env (errs 0) (errs 1) (errs 2) (h 0) (h 1) (h 2),
   rfl, rfl, fun _ _ => rfl⟩

/-- C4: on a connected client a failing write makes `send_raw` disconnect
(connection cleared) and raise the connection-lost
`OverlayConnectionError`, after exactly one write attempt (no internal
retry of the send); and any `send_raw` that succeeds from the
Disconnected state does so only through a successful intervening
`connect()` attempt. -/
theorem send_raw_write_failure (env : SendEnv) (m : PyDict) (e : String)
    (h : env.writeRes 0 = Option.some e) :
    send_raw (Option.some ()) env m
      = (Option.none,
         Except.error (Exc.overlayConnectionError ("Connection error: " ++ e)),
         [Act.write (jsonDumps (sanitize_message m)), Act.closeConn])
    ∧ ∀ (env2 : SendEnv) (m2 : PyDict) (st2 : Option Conn) (tr : List Act),
        send_raw Option.none env2 m2 = (st2, Except.ok (), tr) →
        ∃ i, env2.connectRes i = Except.ok () := by
  constructor
  · show sendBody (Option.some ()) env m [] = _
    unfold sendBody
    rw [h]
    rfl
  · intro env2 m2 st2 tr hsend
    cases h0 : env2.connectRes 0 with
    | ok u => exact ⟨0, by rw [h0]⟩
    | error e0 =>
      cases h1 : env2.connectRes 1 with
      | ok u => exact ⟨1, by rw [h1]⟩
      | error e1 =>
        cases h2 : env2.connectRes 2 with
        | ok u => exact ⟨2, by rw [h2]⟩
        | error e2 =>
          exfalso
          have hc := connect_all_fail env2.connectRes e0 e1 e2 h0 h1 h2
          unfold send_raw at hsend
          rw [hc] at hsend
          simp at hsend

/-- C9: `send_raw` called while Disconnected does not treat the missing
connection as a precondition violation: the connection context first runs
`connect()`; if every attempt fails the call disconnects and raises an
`OverlayConnectionError` (wrapping the connect failure) without writing
anything, and if the first attempt succeeds the call proceeds to sanitize
and write the message. -/
theorem send_raw_disconnected_autoconnect (env : SendEnv) (m : PyDict)
    (errs : ℕ → String)
    (hfail : ∀ i, env.connectRes i = Except.error (errs i)) :
    send_raw Option.none env m
      = (Option.none,
         Except.error (Exc.overlayConnectionError
           ("Connection error: Failed to connect after 3 attempts: " ++ errs 2)),
         [Act.connAttempt 0, Act.sleepFor RECONNECT_DELAY,
          Act.connAttempt 1, Act.sleepFor RECONNECT_DELAY,
          Act.connAttempt 2, Act.closeConn])
    ∧ ∀ (env2 : SendEnv) (m2 : PyDict),
        env2.connectRes 0 = Except.ok () →
        env2.writeRes 0 = Option.none → env2.writeRes 1 = Option.none →
        send_raw Option.none env2 m2
          = (Option.some (), Except.ok (),
             [Act.connAttempt 0,
              Act.write (jsonDumps (sanitize_message m2)), Act.write "\n"]) := by
  constructor
  · unfold send_raw
    rw [connect_all_fail env.connectRes (errs 0) (errs 1) (errs 2)
          (hfail 0) (hfail 1) (hfail 2)]
    rfl
  · intro env2 m2 hc0 hw0 hw1
    unfold send_raw
    rw [connect_first_ok env2.connectRes hc0]
    show sendBody (Option.some ()) env2 m2 [Act.connAttempt 0] = _
    unfold sendBody
    rw [hw0, hw1]
    rfl

/-! ## Supervisor lemmas -/

/-- String append is associative. -/
theorem strAppend_assoc (a b c : String) : a ++ b ++ c = a ++ (b ++ c) :=
  String.ext (by simp [String.data_append, List.append_assoc])

/-- Appending the empty string is the identity. -/
theorem strAppend_empty (a : String) : a ++ "" = a :=
  String.ext (by simp [String.data_append])

/-- `sub` occurs as a contiguous substring of `hay`. -/
def strContains (hay sub : String) : Prop :=
  ∃ pre post, hay = pre ++ sub ++ post

/-- C7: when the host liveness predicate (`check_game_running`, call 0)
is false, `ensure_service` returns immediately: no liveness probe, no
executable discovery, no spawn, no action at all, and the supervisor
state is unchanged. -/
theorem ensure_service_game_not_running (st : SMState) (env : SvcEnv)
    (args : List String) (h : env.gameRunning 0 = false) :
    ensure_service st env args = (st, Except.ok (), []) := by
  unfold ensure_service
  rw [h]
  rfl

/-- C8: when `ensure_service` launches a program that exits within the
2-second grace period with exit code 1 and stderr `"boom"` (the host
still running), the call raises an `OverlayServiceError` whose message
contains both `"1"` and `"boom"`. -/
theorem ensure_service_launch_error (g : ℕ → Bool) (fr : Option String)
    (ep : Option Int) (program : String) (args : List String)
    (hg : ∀ k, g k = true) :
    ∃ msg,
      (ensure_service ⟨Option.none, Option.some program⟩
          ⟨g, false, fr, ep, Option.none, Option.some 1, "boom"⟩ args).2.1
        = Except.error (Exc.overlayServiceError msg)
      ∧ strContains msg "1" ∧ strContains msg "boom" := by
  have hcomp : (ensure_service ⟨Option.none, Option.some program⟩
        ⟨g, false, fr, ep, Option.none, Option.some 1, "boom"⟩ args).2.1
      = Except.error (Exc.overlayServiceError
          ("Failed to start overlay service: "
            ++ (program ++ " exited with code " ++ "1"
                ++ (", stderr: " ++ "boom")))) := by
    unfold ensure_service find_server_program ensureLaunch
    dsimp only
    rw [hg 0, hg 1, hg 2]
    rfl
  refine ⟨_, hcomp, ?_, ?_⟩
  · refine ⟨"Failed to start overlay service: " ++ (program ++ " exited with code "),
            ", stderr: " ++ "boom", ?_⟩
    simp only [strAppend_assoc]
  · refine ⟨"Failed to start overlay service: "
        ++ (program ++ " exited with code " ++ "1" ++ ", stderr: "), "", ?_⟩
    simp only [strAppend_assoc, strAppend_empty]

/-- C10: when the launched child exits within the grace period but the
host liveness predicate has become false by the time the failure is
handled, the `except` handler swallows the launch failure:
`ensure_service` returns normally (no exception reaches the caller),
with the dead child's handle retained in the supervisor state. -/
theorem ensure_service_failure_swallowed (g : ℕ → Bool) (fr : Option String)
    (ep : Option Int) (program : String) (args : List String) (code : Int)
    (errOut : String)
    (h0 : g 0 = true) (h1 : g 1 = true) (h2 : g 2 = false) :
    ensure_service ⟨Option.none, Option.some program⟩
        ⟨g, false, fr, ep, Option.none, Option.some code, errOut⟩ args
      = (⟨Option.some (), Option.some program⟩, Except.ok (),
         [Act.aliveProbe, Act.spawn program args, Act.sleepFor 2,
          Act.pollProc, Act.communicate]) := by
  unfold ensure_service find_server_program ensureLaunch
  dsimp only
  rw [h0, h1, h2]
  rfl

/-! ## The send_message wire scenario -/

/-- A transport where every connect attempt and every write succeeds. -/
def envOK : SendEnv :=
  ⟨fun _ => Except.ok (), fun _ => Option.none⟩

/-- A supervisor environment that is never consulted on the connected
path. -/
def svcEnvIdle : SvcEnv :=
  ⟨fun _ => true, true, Option.none, Option.none, Option.none,
   Option.none, ""⟩

/-- A fresh supervisor state. -/
def svcStateIdle : SMState := ⟨Option.none, Option.none⟩

/-- The exact line content `send_message("m1", "Hello", "red", 10, 20,
ttl=4)` serializes. -/
def sentLine : String :=
  "\x7b\"id\": \"m1\", \"color\": \"red\", \"text\": \"Hello\", \"size\": \"normal\", \"x\": 10, \"y\": 20, \"ttl\": 4\x7d"

/-- C2: on a connected client over a fully mocked transport,
`send_message("m1", "Hello", "red", 10, 20, ttl=4)` (default size
`"normal"`) performs exactly two writes — the JSON object and the single
newline terminator — whose concatenated content is one newline-terminated
line; the JSON object is the serialization of exactly the keys
`id, color, text, size, x, y, ttl` bound to
`"m1", "red", "Hello", "normal", 10, 20, 4`, and contains no newline
itself. -/
theorem send_message_scenario :
    send_message (Option.some ()) envOK svcStateIdle svcEnvIdle []
        "m1" "Hello" "red" 10 20 4 "normal"
      = ((Option.some (), svcStateIdle), Except.ok (),
         [Act.write sentLine, Act.write "\n"])
    ∧ sentLine
        = jsonDumps
            [("id", PyVal.strV "m1"), ("color", PyVal.strV "red"),
             ("text", PyVal.strV "Hello"), ("size", PyVal.strV "normal"),
             ("x", PyVal.intV 10), ("y", PyVal.intV 20),
             ("ttl", PyVal.intV 4)]
    ∧ sentLine.data.count '\n' = 0 :=
  ⟨rfl, rfl, by decide⟩

/-! ## Concrete witnesses -/

/-- A transport whose writes all fail with a broken pipe. -/
def envBroken : SendEnv :=
  ⟨fun _ => Except.ok (), fun _ => Option.some "Broken pipe"⟩

/-- A transport whose connect attempts all fail. -/
def envDead : SendEnv :=
  ⟨fun _ => Except.error "refused", fun _ => Option.none⟩

/-- C1 witness at a concrete dictionary and kept field. -/
theorem sanitize_message_whitelist_witness :
    ("id", PyVal.strV "t") ∈ sanitize_message
        [("id", PyVal.strV "t"), ("malicious", PyVal.strV "rm -rf /")]
    ∧ ("id" ∈ allowed_fields.map Prod.fst
       ∧ ∃ ts, allowed_fields.lookup "id" = Option.some ts
           ∧ isinstanceAny (PyVal.strV "t") ts = true) :=
  ⟨by decide,
   sanitize_message_whitelist
     [("id", PyVal.strV "t"), ("malicious", PyVal.strV "rm -rf /")]
     "id" (PyVal.strV "t") (by decide)⟩

/-- C3 witness: a concrete always-refusing endpoint. -/
theorem connect_retry_exhaustion_witness :
    connect Option.none (fun _ => Except.error "connection refused")
      = (Option.none,
         Except.error (Exc.overlayConnectionError
           "Failed to connect after 3 attempts: connection refused"),
         [Act.connAttempt 0, Act.sleepFor RECONNECT_DELAY,
          Act.connAttempt 1, Act.sleepFor RECONNECT_DELAY,
          Act.connAttempt 2])
    ∧ RECONNECT_ATTEMPTS = 3 ∧ RECONNECT_DELAY = 1
    ∧ connect (Option.some ()) (fun _ => Except.error "x")
        = (Option.some (), Except.ok (), []) :=
  ⟨(connect_retry_exhaustion (fun _ => Except.error "connection refused")
      (fun _ => "connection refused") (fun _ => rfl)).1,
   (connect_retry_exhaustion (fun _ => Except.error "connection refused")
      (fun _ => "connection refused") (fun _ => rfl)).2.1,
   (connect_retry_exhaustion (fun _ => Except.error "connection refused")
      (fun _ => "connection refused") (fun _ => rfl)).2.2.1,
   (connect_retry_exhaustion (fun _ => Except.error "connection refused")
      (fun _ => "connection refused") (fun _ => rfl)).2.2.2 ()
     (fun _ => Except.error "x")⟩

/-- C4 witness: a concrete broken-pipe transport, and a concrete
successful reconnect-and-send. -/
theorem send_raw_write_failure_witness :
    send_raw (Option.some ()) envBroken []
      = (Option.none,
         Except.error (Exc.overlayConnectionError
           "Connection error: Broken pipe"),
         [Act.write "\x7b\x7d", Act.closeConn])
    ∧ ∃ i, envOK.connectRes i = Except.ok () :=
  ⟨(send_raw_write_failure envBroken [] "Broken pipe" rfl).1,
   (send_raw_write_failure envBroken [] "Broken pipe" rfl).2 envOK []
     (Option.some ())
     [Act.connAttempt 0, Act.write "\x7b\x7d", Act.write "\n"] rfl⟩

/-- C5 (amended) witness: a short `text` value passes through (its
1000-character truncation is itself). -/
theorem sanitize_truncation_witness :
    ("text", PyVal.strV (truncate1000 "hi"))
      ∈ sanitize_message [("text", PyVal.strV "hi")] :=
  (sanitize_truncation [("text", PyVal.strV "hi")] "text" "hi"
    (by decide)).1 (by decide)

/-- C7 witness: a concrete supervisor with the host not running. -/
theorem ensure_service_game_not_running_witness :
    ensure_service svcStateIdle
        ⟨fun _ => false, false, Option.none, Option.none, Option.none,
         Option.none, ""⟩ []
      = (svcStateIdle, Except.ok (), []) :=
  ensure_service_game_not_running svcStateIdle
    ⟨fun _ => false, false, Option.none, Option.none, Option.none,
     Option.none, ""⟩ [] rfl

/-- C8 witness: a concrete launch that dies with exit code 1 and stderr
`"boom"`. -/
theorem ensure_service_launch_error_witness :
    ∃ msg,
      (ensure_service ⟨Option.none, Option.some "EDMCOverlay.exe"⟩
          ⟨fun _ => true, false, Option.none, Option.none, Option.none,
           Option.some 1, "boom"⟩ []).2.1
        = Except.error (Exc.overlayServiceError msg)
      ∧ strContains msg "1" ∧ strContains msg "boom" :=
  ensure_service_launch_error (fun _ => true) Option.none Option.none
    "EDMCOverlay.exe" [] (fun _ => rfl)

/-- C9 witness: a dead endpoint, then a healthy one. -/
theorem send_raw_disconnected_autoconnect_witness :
    send_raw Option.none envDead []
      = (Option.none,
         Except.error (Exc.overlayConnectionError
           "Connection error: Failed to connect after 3 attempts: refused"),
         [Act.connAttempt 0, Act.sleepFor RECONNECT_DELAY,
          Act.connAttempt 1, Act.sleepFor RECONNECT_DELAY,
          Act.connAttempt 2, Act.closeConn])
    ∧ send_raw Option.none envOK []
        = (Option.some (), Except.ok (),
           [Act.connAttempt 0, Act.write "\x7b\x7d", Act.write "\n"]) :=
  ⟨(send_raw_disconnected_autoconnect envDead [] (fun _ => "refused")
      (fun _ => rfl)).1,
   (send_raw_disconnected_autoconnect envDead [] (fun _ => "refused")
      (fun _ => rfl)).2 envOK [] rfl rfl rfl⟩

/-- C10 witness: the host stops running while the failed launch is being
handled. -/
theorem ensure_service_failure_swallowed_witness :
    ensure_service ⟨Option.none, Option.some "EDMCOverlay.exe"⟩
        ⟨fun k => decide (k < 2), false, Option.none, Option.none,
         Option.none, Option.some 1, "boom"⟩ []
      = (⟨Option.some (), Option.some "EDMCOverlay.exe"⟩, Except.ok (),
         [Act.aliveProbe, Act.spawn "EDMCOverlay.exe" [], Act.sleepFor 2,
          Act.pollProc, Act.communicate]) :=
  ensure_service_failure_swallowed (fun k => decide (k < 2)) Option.none
    Option.none "EDMCOverlay.exe" [] 1 "boom" rfl rfl rfl

end EDMCOverlay
